import Mathlib

/-!
Verification development for the WebSlider2Pdf pipeline (`make-pdf.js`).

The program converts a `.webslider` tar archive into a PDF: it extracts the
archive into a temporary directory, reads an optional `manifest.json` for the
slide canvas size, enumerates slide folders under `slides/`, serves the
extracted tree over a local HTTP server, screenshots each slide in a headless
browser, and composes one PDF page per captured image.

This file gives a shallow embedding of that pipeline:
- the staged archive tree is an explicit data structure (`Archive`);
- the manifest is a JSON value (`JsonVal`) with JavaScript truthiness
  semantics for the `manifest?.slideSize?.width && manifest?.slideSize?.height`
  check;
- JavaScript's stable `Array.prototype.sort` is modelled by
  `List.insertionSort` (any two stable sorts over the same total preorder
  agree elementwise, so this is exact, not an approximation);
- the HTTP server's response status for a request path is computed from the
  staged tree exactly as the `Bun.serve` fetch handler does (directory
  requests are rewritten to `index.html` when present, then a final
  existence check decides 200 vs 404);
- the per-slide navigation (`page.goto`) outcome is an input oracle
  (`NavResult`), since whether a navigation times out is environmental;
  the control flow reacting to that outcome is modelled faithfully
  (the exception propagates out of the rendering loop);
- `main`'s control flow, exit codes, output write and cleanup calls are
  modelled by `runMain` over an input record of stage outcomes.
-/

namespace WebSlider

/-- One entry of `fsp.readdir(slidesDir, { withFileTypes: true })`:
its name, whether it is a directory, and whether `<name>/index.html`
exists underneath it. -/
structure DirEntry where
  name : String
  isDir : Bool
  hasIndexHtml : Bool
deriving DecidableEq, Repr

/-- A JSON value, as produced by `JSON.parse`. -/
inductive JsonVal where
  | null
  | bool (b : Bool)
  | num (q : ℚ)
  | str (s : String)
  | arr (elems : List JsonVal)
  | obj (fields : List (String × JsonVal))

/-- The staged (extracted) archive tree: whether the `slides/` directory
exists, the entries of `slides/`, and the parsed `manifest.json`
(`none` models both a missing file and a parse failure, exactly the
contract of `readManifestIfExists`). -/
structure Archive where
  hasSlidesDir : Bool
  entries : List DirEntry
  manifest : Option JsonVal

/-- JavaScript property access `v[key]` on a parsed JSON value: `undefined`
(here `none`) unless `v` is an object carrying the key; on duplicate keys
`JSON.parse` keeps the last occurrence. -/
def JsonVal.getField : JsonVal → String → Option JsonVal
  | .obj fields, key => (fields.reverse.find? (fun f => f.1 == key)).map (fun f => f.2)
  | _, _ => none

/-- JavaScript truthiness of an optional JSON value (`undefined`, `null`,
`false`, `0` and `""` are falsy; every other JSON value is truthy). -/
def jsTruthy : Option JsonVal → Bool
  | none => false
  | some .null => false
  | some (.bool b) => b
  | some (.num q) => !(q == 0)
  | some (.str s) => !(s == "")
  | some (.arr _) => true
  | some (.obj _) => true

/-- The value of `manifest?.slideSize?.width` (optional chaining). -/
def manifestWidth (m : Option JsonVal) : Option JsonVal :=
  (m.bind (fun j => j.getField "slideSize")).bind (fun j => j.getField "width")

/-- The value of `manifest?.slideSize?.height` (optional chaining). -/
def manifestHeight (m : Option JsonVal) : Option JsonVal :=
  (m.bind (fun j => j.getField "slideSize")).bind (fun j => j.getField "height")

/-- Slide canvas resolution from `main` (step 3): `slideWidth`/`slideHeight`
start at `1280`/`720` and are both replaced by the manifest values exactly
when `manifest?.slideSize?.width && manifest?.slideSize?.height` is truthy. -/
def resolveSlideSize (m : Option JsonVal) : JsonVal × JsonVal :=
  if jsTruthy (manifestWidth m) && jsTruthy (manifestHeight m) then
    ((manifestWidth m).getD (.num 1280), (manifestHeight m).getD (.num 720))
  else
    (.num 1280, .num 720)

/-- The regex test `/^\d+$/.test n`: nonempty and every character a digit. -/
def isAllDigits (n : String) : Bool :=
  !n.data.isEmpty && n.data.all (fun c => c.isDigit)

/-- Numeric value of a digit string, modelling `Number(name)` on an
all-digits folder name. -/
def natVal (s : String) : Nat :=
  s.data.foldl (fun a c => a * 10 + (c.toNat - 48)) 0

/-- The sort order of `.sort((a, b) => Number(a) - Number(b))`. -/
def numLe (a b : String) : Prop := natVal a ≤ natVal b

instance : DecidableRel numLe := fun _ _ => Nat.decLe _ _

instance : IsTotal String numLe := ⟨fun _ _ => Nat.le_total _ _⟩

instance : IsTrans String numLe := ⟨fun _ _ _ => Nat.le_trans⟩

/-- Code-unit-wise lexicographic comparison of character lists, modelling
the default JavaScript string comparison used by `.sort()` (JS compares
UTF-16 code units; for names below U+10000 this equals code-point order). -/
def charListLe : List Char → List Char → Bool
  | [], _ => true
  | _ :: _, [] => false
  | a :: as, b :: bs =>
    if a.toNat < b.toNat then true
    else if b.toNat < a.toNat then false
    else charListLe as bs

theorem charListLe_total (as bs : List Char) :
    charListLe as bs = true ∨ charListLe bs as = true := by
  induction as generalizing bs with
  | nil => left; rfl
  | cons a as ih =>
    cases bs with
    | nil => right; rfl
    | cons b bs =>
      by_cases hab : a.toNat < b.toNat
      · left; simp [charListLe, hab]
      · by_cases hba : b.toNat < a.toNat
        · right; simp [charListLe, hba]
        · rcases ih bs with h | h
          · left; simp [charListLe, hab, hba, h]
          · right; simp [charListLe, hab, hba, h]

theorem charListLe_trans (as bs cs : List Char)
    (h₁ : charListLe as bs = true) (h₂ : charListLe bs cs = true) :
    charListLe as cs = true := by
  induction as generalizing bs cs with
  | nil => rfl
  | cons a as ih =>
    cases bs with
    | nil => simp [charListLe] at h₁
    | cons b bs =>
      cases cs with
      | nil => simp [charListLe] at h₂
      | cons c cs =>
        simp only [charListLe] at h₁ h₂ ⊢
        split_ifs at h₁ h₂ ⊢ with hab hba hbc hcb hac hca
        all_goals first
          | rfl
          | omega
          | (exact ih bs cs h₁ h₂)

/-- The sort order of the fallback `.sort()` (default string comparison). -/
def lexLe (a b : String) : Prop := charListLe a.data b.data = true

instance : DecidableRel lexLe := fun a b =>
  inferInstanceAs (Decidable (charListLe a.data b.data = true))

instance : IsTotal String lexLe := ⟨fun a b => charListLe_total a.data b.data⟩

instance : IsTrans String lexLe :=
  ⟨fun a b c => charListLe_trans a.data b.data c.data⟩

/-- The `entries.filter(isDirectory).map(name).filter(/^\d+$/)` chain of
`listNumericSlideFolders`, before sorting. -/
def digitNames (a : Archive) : List String :=
  ((a.entries.filter (fun e => e.isDir)).map (fun e => e.name)).filter isAllDigits

/-- Whether `fs.existsSync(path.join(slidesRoot, n, "index.html"))` holds in
the staged tree: some directory entry named `n` carries an `index.html`. -/
def indexExistsUnder (entries : List DirEntry) (n : String) : Bool :=
  entries.any (fun e => e.name == n && e.isDir && e.hasIndexHtml)

/-- The fallback scan's candidate chain (directories whose `index.html`
exists), before sorting. -/
def indexNames (a : Archive) : List String :=
  ((a.entries.filter (fun e => e.isDir)).map (fun e => e.name)).filter
    (indexExistsUnder a.entries)

/-- `listNumericSlideFolders`: directory entries of `slides/` whose names are
all digits, sorted ascending by numeric value; a `readdir` failure (missing
`slides/` directory) is caught and yields `[]`. -/
def listNumericSlideFolders (a : Archive) : List String :=
  if a.hasSlidesDir then List.insertionSort numLe (digitNames a) else []

/-- Slide discovery from `main` (step 4): the primary numeric strategy,
falling back — only when the primary yields zero results — to directories
containing `index.html`, sorted lexicographically. `none` models the
`readdir` failure in the fallback scan, whose `catch` exits the process. -/
def enumerateSlides (a : Archive) : Option (List String) :=
  if listNumericSlideFolders a = [] then
    if a.hasSlidesDir then some (List.insertionSort lexLe (indexNames a)) else none
  else
    some (listNumericSlideFolders a)

/-- Whether the request path `p` names a file of the staged tree, as seen by
the `Bun.serve` fetch handler. Slide content lives under `/slides/`: a
directory entry with an `index.html` contributes `/slides/<name>/index.html`,
and a plain-file entry of `slides/` contributes `/slides/<name>`. (Top-level
files such as `manifest.json` are not probed by the rendering loop and are
irrelevant to every request the model receives.) -/
def isFilePath (a : Archive) (p : String) : Bool :=
  a.entries.any (fun e =>
    (e.isDir && e.hasIndexHtml && p == "/slides/" ++ e.name ++ "/index.html")
    || (!e.isDir && p == "/slides/" ++ e.name))

/-- Whether the request path `p` names a directory of the staged tree:
`/slides` itself, or `/slides/<name>` for a directory entry. -/
def isDirPath (a : Archive) (p : String) : Bool :=
  (a.hasSlidesDir && p == "/slides")
  || a.entries.any (fun e => e.isDir && p == "/slides/" ++ e.name)

/-- The fetch handler's directory rewrite: a request for an existing
directory that contains an `index.html` is served that `index.html`. -/
def resolvePath (a : Archive) (p : String) : String :=
  if isDirPath a p && isFilePath a (p ++ "/index.html") then p ++ "/index.html" else p

/-- The HTTP status the local server answers for request path `p`:
after the directory rewrite, 200 when the resolved path exists
(`fs.existsSync`), else 404. -/
def serveStatus (a : Archive) (p : String) : Nat :=
  if isFilePath a (resolvePath a p) || isDirPath a (resolvePath a p) then 200 else 404

/-- The ordered candidate URL paths probed for slide identifier `s`
(the `tryPaths` array of the rendering loop). -/
def tryPaths (s : String) : List String :=
  ["/slides/" ++ s ++ "/index.html",
   "/slides/" ++ s,
   "/" ++ s ++ "/index.html",
   "/" ++ s,
   "/slides/" ++ s ++ ".html"]

/-- URL resolution for one slide: the first candidate path whose `fetch`
answers status 200, or `none` (the slide is then skipped with a warning). -/
def probeSlide (status : String → Nat) (s : String) : Option String :=
  (tryPaths s).find? (fun p => status p == 200)

/-- Outcome of `page.goto` for one slide: success, or a navigation timeout
(which in the source throws out of the rendering loop). -/
inductive NavResult where
  | ok
  | timeout
deriving DecidableEq, Repr

/-- The rendering loop of `main` (step 6): slides are processed strictly in
order on one page; a slide with no resolvable URL is skipped and the loop
continues; a successful navigation appends one captured image; a navigation
timeout raises, which aborts the loop (`Except.error`), to be caught by the
rendering stage's `catch`. The accumulator holds captured slide identifiers
in reverse. -/
def renderLoop (status : String → Nat) (nav : String → NavResult) :
    List String → List String → Except Unit (List String)
  | [], acc => Except.ok acc.reverse
  | s :: rest, acc =>
    match probeSlide status s with
    | none => renderLoop status nav rest acc
    | some _ =>
      match nav s with
      | NavResult.ok => renderLoop status nav rest (s :: acc)
      | NavResult.timeout => Except.error ()

/-- `pxToPdfPoints`: pixels to PDF points at the given DPI (default 96). -/
def pxToPdfPoints (px : ℚ) (dpi : ℚ) : ℚ :=
  px * 72 / dpi

/-- One page of the composed PDF: its size in points and the rectangle at
which the captured JPEG is drawn. -/
structure PdfPage where
  width : ℚ
  height : ℚ
  imgX : ℚ
  imgY : ℚ
  imgWidth : ℚ
  imgHeight : ℚ
deriving DecidableEq, Repr

/-- The PDF composition loop of `main` (step 7): one page per rendered image,
in list order, sized `pxToPdfPoints` of the image's pixel dimensions at
96 DPI, with the image drawn at the origin at full page width and height. -/
def composePdf (imgs : List (ℚ × ℚ)) : List PdfPage :=
  imgs.map (fun wh =>
    { width := pxToPdfPoints wh.1 96
      height := pxToPdfPoints wh.2 96
      imgX := 0
      imgY := 0
      imgWidth := pxToPdfPoints wh.1 96
      imgHeight := pxToPdfPoints wh.2 96 })

/-- Command-line argument handling: `process.argv.length < 4` (fewer than
two positional arguments after the runtime and script names) prints usage
and exits; otherwise the archive path is `process.argv[2]` and the output
path is `process.argv[3]`, any further arguments being ignored. -/
def parseArgs (argv : List String) : Option (String × String) :=
  if argv.length < 4 then none
  else some (argv.getD 2 "", argv.getD 3 "")

/-- Cleanup side effects `main` can perform, in the order attempted. -/
inductive CleanupAction where
  | closeBrowser
  | stopServer
  | removeTmp
deriving DecidableEq, Repr

/-- Environment-determined outcomes of one invocation: the argument count,
whether the archive file is statable, whether tar extraction succeeds, the
staged tree it produces, whether a Chrome binary is found, the per-slide
navigation oracle, and whether composing/writing the output PDF succeeds
(`writeOk = false` models a thrown `readFile`/`save`/`writeFile`). -/
structure RunInput where
  argc : Nat
  archiveExists : Bool
  extractOk : Bool
  tree : Archive
  chromeFound : Bool
  nav : String → NavResult
  writeOk : Bool

/-- Observable outcome of one invocation: process exit code, whether usage
was printed to stderr, whether the output PDF was written, the slide
identifiers of the output's pages in page order, the cleanup calls attempted
in order, and whether the browser was ever launched (i.e. the rendering
stage began). -/
structure RunResult where
  exitCode : Nat
  usagePrinted : Bool
  outputWritten : Bool
  pages : List String
  cleanup : List CleanupAction
  browserLaunched : Bool
deriving DecidableEq, Repr

/-- Shorthand for the failure results of `runMain`. -/
def fatalResult (clean : List CleanupAction) (launched : Bool) : RunResult :=
  { exitCode := 1
    usagePrinted := false
    outputWritten := false
    pages := []
    cleanup := clean
    browserLaunched := launched }

/-- The whole program (`main` plus the top-level argument check), as a
function from environment outcomes to the observable result. Branches mirror
the source: usage exit (code 2); archive stat failure, tar extraction
failure, fallback-scan `readdir` failure and empty slide list (code 1,
before the server starts); missing browser (code 1, server stopped); a
navigation error and the zero-rendered check (code 1, browser and server
shut down, temp directory not removed); write failure caught by the same
handler; and full success (code 0, browser and server shut down, then the
temp directory removed best-effort). -/
def runMain (inp : RunInput) : RunResult :=
  if inp.argc < 4 then
    { exitCode := 2
      usagePrinted := true
      outputWritten := false
      pages := []
      cleanup := []
      browserLaunched := false }
  else if !inp.archiveExists then fatalResult [] false
  else if !inp.extractOk then fatalResult [] false
  else
    match enumerateSlides inp.tree with
    | none => fatalResult [] false
    | some slideDirs =>
      if slideDirs = [] then fatalResult [] false
      else if !inp.chromeFound then fatalResult [CleanupAction.stopServer] false
      else
        match renderLoop (serveStatus inp.tree) inp.nav slideDirs [] with
        | Except.error _ =>
          fatalResult [CleanupAction.closeBrowser, CleanupAction.stopServer] true
        | Except.ok images =>
          if images = [] then
            fatalResult [CleanupAction.closeBrowser, CleanupAction.stopServer] true
          else if !inp.writeOk then
            fatalResult [CleanupAction.closeBrowser, CleanupAction.stopServer] true
          else
            { exitCode := 0
              usagePrinted := false
              outputWritten := true
              pages := images
              cleanup := [CleanupAction.closeBrowser, CleanupAction.stopServer,
                          CleanupAction.removeTmp]
              browserLaunched := true }

theorem serveStatus_of_dirPath (a : Archive) (p : String)
    (h : isDirPath a p = true) : serveStatus a p = 200 := by
  unfold serveStatus resolvePath
  by_cases hf : isFilePath a (p ++ "/index.html") = true
  · simp [h, hf]
  · simp only [Bool.not_eq_true] at hf
    simp [h, hf]

theorem probeSlide_isSome_of_dirPath (a : Archive) (s : String)
    (h : isDirPath a ("/slides/" ++ s) = true) :
    (probeSlide (serveStatus a) s).isSome = true := by
  have hmem : ("/slides/" ++ s) ∈ tryPaths s := by simp [tryPaths]
  have hp : (serveStatus a ("/slides/" ++ s) == 200) = true := by
    rw [serveStatus_of_dirPath a _ h]
    rfl
  exact List.find?_isSome.mpr ⟨_, hmem, hp⟩

theorem isDir_of_mem_listNumericSlideFolders (a : Archive) (s : String)
    (h : s ∈ listNumericSlideFolders a) :
    ∃ e ∈ a.entries, e.isDir = true ∧ e.name = s := by
  unfold listNumericSlideFolders at h
  by_cases hs : a.hasSlidesDir = true
  · rw [if_pos hs, (List.perm_insertionSort numLe _).mem_iff] at h
    unfold digitNames at h
    simp only [List.mem_filter, List.mem_map] at h
    rcases h with ⟨⟨e, ⟨hme, hd⟩, hn⟩, _⟩
    exact ⟨e, hme, hd, hn⟩
  · simp only [Bool.not_eq_true] at hs
    rw [if_neg (by simp [hs])] at h
    exact absurd h (List.not_mem_nil s)

theorem isDir_of_mem_fallback (a : Archive) (s : String)
    (h : s ∈ List.insertionSort lexLe (indexNames a)) :
    ∃ e ∈ a.entries, e.isDir = true ∧ e.name = s := by
  rw [(List.perm_insertionSort lexLe _).mem_iff] at h
  unfold indexNames at h
  simp only [List.mem_filter, List.mem_map] at h
  rcases h with ⟨⟨e, ⟨hme, hd⟩, hn⟩, _⟩
  exact ⟨e, hme, hd, hn⟩

theorem isDirPath_of_entry (a : Archive) (s : String)
    (h : ∃ e ∈ a.entries, e.isDir = true ∧ e.name = s) :
    isDirPath a ("/slides/" ++ s) = true := by
  rcases h with ⟨e, he, hd, hn⟩
  unfold isDirPath
  refine Bool.or_eq_true_iff.mpr (Or.inr ?_)
  exact List.any_eq_true.mpr ⟨e, he, by simp [hd, hn]⟩

theorem isDir_of_mem_enumerateSlides (a : Archive) (l : List String) (s : String)
    (he : enumerateSlides a = some l) (hm : s ∈ l) :
    ∃ e ∈ a.entries, e.isDir = true ∧ e.name = s := by
  unfold enumerateSlides at he
  by_cases hp : listNumericSlideFolders a = []
  · rw [if_pos hp] at he
    by_cases hs : a.hasSlidesDir = true
    · rw [if_pos hs] at he
      cases he
      exact isDir_of_mem_fallback a s hm
    · rw [if_neg hs] at he
      cases he
  · rw [if_neg hp] at he
    cases he
    exact isDir_of_mem_listNumericSlideFolders a s hm

theorem probeSlide_isSome_of_mem_enumerateSlides (a : Archive) (l : List String)
    (s : String) (he : enumerateSlides a = some l) (hm : s ∈ l) :
    (probeSlide (serveStatus a) s).isSome = true :=
  probeSlide_isSome_of_dirPath a s
    (isDirPath_of_entry a s (isDir_of_mem_enumerateSlides a l s he hm))

theorem renderLoop_ok (status : String → Nat) (nav : String → NavResult)
    (l acc : List String) (hp : ∀ s ∈ l, (probeSlide status s).isSome = true)
    (hn : ∀ s, nav s = NavResult.ok) :
    renderLoop status nav l acc = Except.ok (acc.reverse ++ l) := by
  induction l generalizing acc with
  | nil => simp [renderLoop]
  | cons s rest ih =>
    have hs := hp s (by simp)
    rcases Option.isSome_iff_exists.mp hs with ⟨p, hpe⟩
    have hrest := ih (s :: acc) (fun t ht => hp t (by simp [ht]))
    simp only [renderLoop, hpe, hn s, hrest]
    simp

theorem runMain_success (inp : RunInput) (l : List String)
    (h4 : ¬ inp.argc < 4) (hA : inp.archiveExists = true) (hE : inp.extractOk = true)
    (he : enumerateSlides inp.tree = some l) (hne : l ≠ [])
    (hC : inp.chromeFound = true)
    (hn : ∀ s, inp.nav s = NavResult.ok) (hW : inp.writeOk = true) :
    runMain inp =
      { exitCode := 0
        usagePrinted := false
        outputWritten := true
        pages := l
        cleanup := [CleanupAction.closeBrowser, CleanupAction.stopServer,
                    CleanupAction.removeTmp]
        browserLaunched := true } := by
  have hr : renderLoop (serveStatus inp.tree) inp.nav l [] = Except.ok l := by
    have h := renderLoop_ok (serveStatus inp.tree) inp.nav l []
      (fun s hs => probeSlide_isSome_of_mem_enumerateSlides inp.tree l s he hs) hn
    simpa using h
  unfold runMain
  rw [if_neg h4]
  simp [hA, hE, he, hne, hC, hr, hW]

/-- C1: for an archive whose `slides/` directory holds `K` all-digits-named
subdirectories, a run in which every stage succeeds and no navigation times
out produces exactly `K` pages, a permutation of those folder names sorted
ascending by numeric value; when no all-digits subdirectory exists but `M`
subdirectories contain an `index.html`, the fallback yields exactly `M`
pages sorted lexicographically — the fallback being reachable only when the
primary list is empty. -/
theorem c1_page_count_and_order (inp : RunInput)
    (h4 : 4 ≤ inp.argc) (hA : inp.archiveExists = true) (hE : inp.extractOk = true)
    (hS : inp.tree.hasSlidesDir = true) (hC : inp.chromeFound = true)
    (hW : inp.writeOk = true) (hn : ∀ s, inp.nav s = NavResult.ok) :
    (digitNames inp.tree ≠ [] →
      (runMain inp).pages.length = (digitNames inp.tree).length ∧
      (runMain inp).pages.Perm (digitNames inp.tree) ∧
      List.Sorted numLe (runMain inp).pages ∧
      (runMain inp).exitCode = 0 ∧ (runMain inp).outputWritten = true) ∧
    (digitNames inp.tree = [] → indexNames inp.tree ≠ [] →
      (runMain inp).pages.length = (indexNames inp.tree).length ∧
      (runMain inp).pages.Perm (indexNames inp.tree) ∧
      List.Sorted lexLe (runMain inp).pages ∧
      (runMain inp).exitCode = 0 ∧ (runMain inp).outputWritten = true) := by
  have h4' : ¬ inp.argc < 4 := by omega
  constructor
  · intro hd
    have hprim : listNumericSlideFolders inp.tree =
        List.insertionSort numLe (digitNames inp.tree) := by
      unfold listNumericSlideFolders
      rw [if_pos hS]
    have hpne : listNumericSlideFolders inp.tree ≠ [] := by
      rw [hprim]
      intro hx
      have hperm := List.perm_insertionSort numLe (digitNames inp.tree)
      rw [hx] at hperm
      exact hd (hperm.nil_eq).symm
    have he : enumerateSlides inp.tree =
        some (List.insertionSort numLe (digitNames inp.tree)) := by
      unfold enumerateSlides
      rw [if_neg hpne, hprim]
    have hlne : List.insertionSort numLe (digitNames inp.tree) ≠ [] := by
      rw [← hprim]; exact hpne
    have hrun := runMain_success inp _ h4' hA hE he hlne hC hn hW
    rw [hrun]
    exact ⟨(List.perm_insertionSort numLe _).length_eq,
           List.perm_insertionSort numLe _,
           List.sorted_insertionSort numLe _, rfl, rfl⟩
  · intro hd hi
    have hprim0 : listNumericSlideFolders inp.tree = [] := by
      unfold listNumericSlideFolders
      rw [if_pos hS, hd]
      rfl
    have he : enumerateSlides inp.tree =
        some (List.insertionSort lexLe (indexNames inp.tree)) := by
      unfold enumerateSlides
      rw [if_pos hprim0, if_pos hS]
    have hlne : List.insertionSort lexLe (indexNames inp.tree) ≠ [] := by
      intro hx
      have hperm := List.perm_insertionSort lexLe (indexNames inp.tree)
      rw [hx] at hperm
      exact hi (hperm.nil_eq).symm
    have hrun := runMain_success inp _ h4' hA hE he hlne hC hn hW
    rw [hrun]
    exact ⟨(List.perm_insertionSort lexLe _).length_eq,
           List.perm_insertionSort lexLe _,
           List.sorted_insertionSort lexLe _, rfl, rfl⟩

/-- Concrete run for the C1 witness: two numeric slide folders named "10"
and "2" (listed in that order), all stages succeeding. -/
def exInputC1 : RunInput :=
  { argc := 4
    archiveExists := true
    extractOk := true
    tree := { hasSlidesDir := true
              entries := [⟨"10", true, true⟩, ⟨"2", true, true⟩]
              manifest := none }
    chromeFound := true
    nav := fun _ => NavResult.ok
    writeOk := true }

/-- Witness for C1 at a concrete archive with numeric folders "10" and "2":
two pages, a permutation of the folder names, sorted numerically (so
"2" before "10", not the lexicographic order). -/
theorem c1_page_count_and_order_witness :
    (runMain exInputC1).pages.length = (digitNames exInputC1.tree).length ∧
    (runMain exInputC1).pages.Perm (digitNames exInputC1.tree) ∧
    List.Sorted numLe (runMain exInputC1).pages ∧
    (runMain exInputC1).exitCode = 0 ∧ (runMain exInputC1).outputWritten = true :=
  (c1_page_count_and_order exInputC1 (by decide) rfl rfl rfl rfl rfl
    (fun _ => rfl)).1 (by decide)

/-- Concrete run for C2: two resolvable slides "0" and "1", with the
navigation of slide "0" timing out and everything else succeeding. -/
def exInputC2 : RunInput :=
  { argc := 4
    archiveExists := true
    extractOk := true
    tree := { hasSlidesDir := true
              entries := [⟨"0", true, true⟩, ⟨"1", true, true⟩]
              manifest := none }
    chromeFound := true
    nav := fun s => if s == "0" then NavResult.timeout else NavResult.ok
    writeOk := true }

/-- C2 counterexample: in `exInputC2` slide "1" resolves to a URL, yet the
navigation timeout on slide "0" ends the entire run with exit code 1, zero
pages and no output file — refuting the claim that a navigation timeout is
a failure of that slide only and does not abort the pipeline. -/
theorem c2_timeout_counterexample :
    (probeSlide (serveStatus exInputC2.tree) "1").isSome = true ∧
    (runMain exInputC2).exitCode = 1 ∧
    (runMain exInputC2).pages = [] ∧
    (runMain exInputC2).outputWritten = false := by decide

/-- C2 (amended): a navigation timeout during `page.goto` — bounded at
30 seconds — is not confined to its slide: the exception propagates out of
the rendering loop to the stage's catch handler, which closes the browser
and the server and exits with code 1; no slide is rendered into an output
and no output file is written. -/
theorem c2_timeout_aborts (inp : RunInput) (l : List String)
    (h4 : ¬ inp.argc < 4) (hA : inp.archiveExists = true) (hE : inp.extractOk = true)
    (he : enumerateSlides inp.tree = some l) (hne : l ≠ [])
    (hC : inp.chromeFound = true)
    (hr : renderLoop (serveStatus inp.tree) inp.nav l [] = Except.error ()) :
    (runMain inp).exitCode = 1 ∧ (runMain inp).outputWritten = false ∧
    (runMain inp).pages = [] ∧
    (runMain inp).cleanup = [CleanupAction.closeBrowser, CleanupAction.stopServer] := by
  unfold runMain
  rw [if_neg h4]
  simp [hA, hE, he, hne, hC, hr, fatalResult]

/-- Witness for C2's amended statement at the concrete run `exInputC2`. -/
theorem c2_timeout_aborts_witness :
    (runMain exInputC2).exitCode = 1 ∧ (runMain exInputC2).outputWritten = false ∧
    (runMain exInputC2).pages = [] ∧
    (runMain exInputC2).cleanup = [CleanupAction.closeBrowser, CleanupAction.stopServer] :=
  c2_timeout_aborts exInputC2 ["0", "1"] (by decide) rfl rfl (by decide) (by decide)
    rfl rfl

/-- Concrete run for C3: rendering succeeds for the single slide but writing
the output PDF fails, i.e. an uncaught exception inside the rendering
stage's try block after the browser was launched. -/
def exInputC3 : RunInput :=
  { argc := 4
    archiveExists := true
    extractOk := true
    tree := { hasSlidesDir := true
              entries := [⟨"0", true, true⟩]
              manifest := none }
    chromeFound := true
    nav := fun _ => NavResult.ok
    writeOk := false }

/-- C3 counterexample: in `exInputC3` the rendering stage has begun
(`browserLaunched`), the exit path attempts browser and server shutdown,
but removal of the working directory is never attempted — refuting the
claim that every exit path after rendering begins attempts all three
cleanup steps. -/
theorem c3_cleanup_counterexample :
    (runMain exInputC3).browserLaunched = true ∧
    (runMain exInputC3).cleanup = [CleanupAction.closeBrowser, CleanupAction.stopServer] ∧
    ¬ CleanupAction.removeTmp ∈ (runMain exInputC3).cleanup := by decide

/-- Exhaustive shape analysis of `runMain`: every run ends in the usage
result, one of the three failure results, or the success result with a
nonempty page list. -/
theorem runMain_shape (inp : RunInput) :
    runMain inp =
      { exitCode := 2, usagePrinted := true, outputWritten := false, pages := [],
        cleanup := [], browserLaunched := false } ∨
    runMain inp = fatalResult [] false ∨
    runMain inp = fatalResult [CleanupAction.stopServer] false ∨
    runMain inp = fatalResult [CleanupAction.closeBrowser, CleanupAction.stopServer] true ∨
    ∃ imgs, imgs ≠ [] ∧ runMain inp =
      { exitCode := 0, usagePrinted := false, outputWritten := true, pages := imgs,
        cleanup := [CleanupAction.closeBrowser, CleanupAction.stopServer,
                    CleanupAction.removeTmp],
        browserLaunched := true } := by
  unfold runMain
  split
  · exact Or.inl rfl
  · split
    · exact Or.inr (Or.inl rfl)
    · split
      · exact Or.inr (Or.inl rfl)
      · split
        · exact Or.inr (Or.inl rfl)
        · split
          · exact Or.inr (Or.inl rfl)
          · split
            · exact Or.inr (Or.inr (Or.inl rfl))
            · split
              · exact Or.inr (Or.inr (Or.inr (Or.inl rfl)))
              · split
                · exact Or.inr (Or.inr (Or.inr (Or.inl rfl)))
                · split
                  · exact Or.inr (Or.inr (Or.inr (Or.inl rfl)))
                  · exact Or.inr (Or.inr (Or.inr (Or.inr
                      ⟨_, by assumption, rfl⟩)))

/-- C3 (amended): on every exit path after the rendering stage begins the
implementation attempts, in order, browser shutdown then HTTP listener
shutdown; the best-effort recursive removal of the working directory is
attempted — after those two — only on the success path (exit code 0). On
the failure paths (exit code 1) it is not attempted. -/
theorem c3_cleanup_order (inp : RunInput)
    (h : (runMain inp).browserLaunched = true) :
    ((runMain inp).exitCode = 0 ∧
      (runMain inp).cleanup =
        [CleanupAction.closeBrowser, CleanupAction.stopServer, CleanupAction.removeTmp]) ∨
    ((runMain inp).exitCode = 1 ∧
      (runMain inp).cleanup = [CleanupAction.closeBrowser, CleanupAction.stopServer]) := by
  rcases runMain_shape inp with h1 | h1 | h1 | h1 | ⟨imgs, hne, h1⟩ <;> rw [h1] at h ⊢
  · simp at h
  · simp [fatalResult] at h
  · simp [fatalResult] at h
  · right; exact ⟨rfl, rfl⟩
  · left; exact ⟨rfl, rfl⟩

/-- Witness for C3's amended statement at the concrete run `exInputC3`. -/
theorem c3_cleanup_order_witness :
    ((runMain exInputC3).exitCode = 0 ∧
      (runMain exInputC3).cleanup =
        [CleanupAction.closeBrowser, CleanupAction.stopServer, CleanupAction.removeTmp]) ∨
    ((runMain exInputC3).exitCode = 1 ∧
      (runMain exInputC3).cleanup = [CleanupAction.closeBrowser, CleanupAction.stopServer]) :=
  c3_cleanup_order exInputC3 (by decide)

/-- C4: the output PDF is written exactly on the success path: if the run
wrote the output then the exit code is 0 and the pages are the complete
result of rendering every resolvable slide of the enumerated slide set
(composition comes after the loop finishes); conversely every run that
exits nonzero — archive missing, extraction failure, no slides, no
browser, zero rendered, write failure — writes no output file. -/
theorem c4_no_partial_output (inp : RunInput) :
    ((runMain inp).outputWritten = true →
      (runMain inp).exitCode = 0 ∧
      ∃ l imgs, enumerateSlides inp.tree = some l ∧ l ≠ [] ∧
        renderLoop (serveStatus inp.tree) inp.nav l [] = Except.ok imgs ∧
        imgs ≠ [] ∧ (runMain inp).pages = imgs) ∧
    ((runMain inp).exitCode ≠ 0 → (runMain inp).outputWritten = false) := by
  unfold runMain
  split
  · exact ⟨fun hw => by simp at hw, fun _ => rfl⟩
  · split
    · exact ⟨fun hw => by simp [fatalResult] at hw, fun _ => rfl⟩
    · split
      · exact ⟨fun hw => by simp [fatalResult] at hw, fun _ => rfl⟩
      · split
        · exact ⟨fun hw => by simp [fatalResult] at hw, fun _ => rfl⟩
        · split
          · exact ⟨fun hw => by simp [fatalResult] at hw, fun _ => rfl⟩
          · split
            · exact ⟨fun hw => by simp [fatalResult] at hw, fun _ => rfl⟩
            · split
              · exact ⟨fun hw => by simp [fatalResult] at hw, fun _ => rfl⟩
              · split
                · exact ⟨fun hw => by simp [fatalResult] at hw, fun _ => rfl⟩
                · split
                  · exact ⟨fun hw => by simp [fatalResult] at hw, fun _ => rfl⟩
                  · exact ⟨fun _ => ⟨rfl, _, _, by assumption, by assumption,
                             by assumption, by assumption, rfl⟩,
                           fun hx => absurd rfl hx⟩

/-- Concrete run for the C4 witness: the input archive path is not
statable, a fatal pipeline error. -/
def exInputC4 : RunInput :=
  { argc := 4
    archiveExists := false
    extractOk := true
    tree := { hasSlidesDir := true
              entries := [⟨"0", true, true⟩]
              manifest := none }
    chromeFound := true
    nav := fun _ => NavResult.ok
    writeOk := true }

/-- Witness for C4 at the concrete fatal run `exInputC4`: nonzero exit and
no output written. -/
theorem c4_no_partial_output_witness :
    (runMain exInputC4).exitCode ≠ 0 ∧ (runMain exInputC4).outputWritten = false :=
  ⟨by decide, (c4_no_partial_output exInputC4).2 (by decide)⟩

/-- Manifest for the C5 counterexample: `slideSize` carries the numeric
fields `width: 0`, `height: 720`. -/
def exManifestC5 : Option JsonVal :=
  some (JsonVal.obj [("slideSize",
    JsonVal.obj [("width", JsonVal.num 0), ("height", JsonVal.num 720)])])

/-- C5 counterexample: `exManifestC5` exists, parses, and carries numeric
`width` and `height` under `slideSize`, yet the resolver does not adopt its
width 0: JavaScript truthiness treats the numeric value 0 as absent and the
resolver yields the 1280×720 default — refuting "the canvas dimensions
equal the manifest's slideSize exactly when [...] numeric width and
height". -/
theorem c5_manifest_counterexample :
    manifestWidth exManifestC5 = some (JsonVal.num 0) ∧
    manifestHeight exManifestC5 = some (JsonVal.num 720) ∧
    resolveSlideSize exManifestC5 = (JsonVal.num 1280, JsonVal.num 720) ∧
    (0 : ℚ) ≠ 1280 := by
  refine ⟨rfl, rfl, rfl, by norm_num⟩

/-- C5 (amended): the resolver adopts the manifest's `slideSize.width` and
`slideSize.height` as the canvas — whatever JSON values they are — exactly
when both are truthy in the JavaScript sense (so nonzero numbers, but also
nonempty strings, objects and arrays); in every other case, including a
numeric width or height of 0, it yields the 1280×720 default, adopting no
partial field and signaling no error. -/
theorem c5_truthy_adoption (m : Option JsonVal) :
    (jsTruthy (manifestWidth m) = true → jsTruthy (manifestHeight m) = true →
      ∃ w h, manifestWidth m = some w ∧ manifestHeight m = some h ∧
        resolveSlideSize m = (w, h)) ∧
    (jsTruthy (manifestWidth m) = false ∨ jsTruthy (manifestHeight m) = false →
      resolveSlideSize m = (JsonVal.num 1280, JsonVal.num 720)) := by
  constructor
  · intro hw hh
    rcases hwv : manifestWidth m with _ | w
    · rw [hwv] at hw; simp [jsTruthy] at hw
    · rcases hhv : manifestHeight m with _ | h
      · rw [hhv] at hh; simp [jsTruthy] at hh
      · refine ⟨w, h, rfl, rfl, ?_⟩
        unfold resolveSlideSize
        rw [if_pos (by rw [hw, hh]; rfl)]
        rw [hwv, hhv]
        rfl
  · intro hor
    unfold resolveSlideSize
    rw [if_neg ?_]
    rcases hor with h | h <;> simp [h]

/-- Manifest for the C5 witness: a truthy string width and a nonzero
numeric height, both adopted as-is by the resolver. -/
def exManifestC5W : Option JsonVal :=
  some (JsonVal.obj [("slideSize",
    JsonVal.obj [("width", JsonVal.str "800"), ("height", JsonVal.num 600)])])

/-- Witness for C5's amended statement at `exManifestC5W`: both fields are
truthy (one of them a string, not a number) and both are adopted. -/
theorem c5_truthy_adoption_witness :
    ∃ w h, manifestWidth exManifestC5W = some w ∧
      manifestHeight exManifestC5W = some h ∧
      resolveSlideSize exManifestC5W = (w, h) :=
  (c5_truthy_adoption exManifestC5W).1 rfl rfl

/-- C6: every composed PDF page takes its dimensions from its image's pixel
dimensions converted at the fixed 96-DPI rule `points = pixels * 72 / 96`,
with the image drawn at the origin at full page width and height; in
particular 1920×1080 pixels yield a 1440×810-point page and the 1280×720
default yields a 960×540-point page. -/
theorem c6_page_dimensions :
    (∀ (imgs : List (ℚ × ℚ)) (pg : PdfPage), pg ∈ composePdf imgs →
      ∃ wh ∈ imgs, pg.width = wh.1 * 72 / 96 ∧ pg.height = wh.2 * 72 / 96 ∧
        pg.imgX = 0 ∧ pg.imgY = 0 ∧ pg.imgWidth = pg.width ∧
        pg.imgHeight = pg.height) ∧
    composePdf [((1920 : ℚ), (1080 : ℚ))] =
      [{ width := 1440, height := 810, imgX := 0, imgY := 0,
         imgWidth := 1440, imgHeight := 810 }] ∧
    composePdf [((1280 : ℚ), (720 : ℚ))] =
      [{ width := 960, height := 540, imgX := 0, imgY := 0,
         imgWidth := 960, imgHeight := 540 }] := by
  refine ⟨?_, ?_, ?_⟩
  · intro imgs pg hm
    unfold composePdf at hm
    rcases List.mem_map.mp hm with ⟨wh, hwh, heq⟩
    rw [← heq]
    exact ⟨wh, hwh, rfl, rfl, rfl, rfl, rfl, rfl⟩
  · simp [composePdf, pxToPdfPoints]
    norm_num
  · simp [composePdf, pxToPdfPoints]
    norm_num

/-- Witness for C6 at the page composed from a 1920×1080 image. -/
theorem c6_page_dimensions_witness :
    ∃ wh ∈ [((1920 : ℚ), (1080 : ℚ))],
      ({ width := 1440, height := 810, imgX := 0, imgY := 0,
         imgWidth := 1440, imgHeight := 810 } : PdfPage).width = wh.1 * 72 / 96 ∧
      ({ width := 1440, height := 810, imgX := 0, imgY := 0,
         imgWidth := 1440, imgHeight := 810 } : PdfPage).height = wh.2 * 72 / 96 ∧
      ({ width := 1440, height := 810, imgX := 0, imgY := 0,
         imgWidth := 1440, imgHeight := 810 } : PdfPage).imgX = 0 ∧
      ({ width := 1440, height := 810, imgX := 0, imgY := 0,
         imgWidth := 1440, imgHeight := 810 } : PdfPage).imgY = 0 ∧
      ({ width := 1440, height := 810, imgX := 0, imgY := 0,
         imgWidth := 1440, imgHeight := 810 } : PdfPage).imgWidth =
        ({ width := 1440, height := 810, imgX := 0, imgY := 0,
           imgWidth := 1440, imgHeight := 810 } : PdfPage).width ∧
      ({ width := 1440, height := 810, imgX := 0, imgY := 0,
         imgWidth := 1440, imgHeight := 810 } : PdfPage).imgHeight =
        ({ width := 1440, height := 810, imgX := 0, imgY := 0,
           imgWidth := 1440, imgHeight := 810 } : PdfPage).height :=
  c6_page_dimensions.1 [((1920 : ℚ), (1080 : ℚ))] _
    (by rw [c6_page_dimensions.2.1]; exact List.mem_singleton.mpr rfl)

/-- C7: URL resolution probes exactly the five candidate paths
`/slides/<id>/index.html`, `/slides/<id>`, `/<id>/index.html`, `/<id>`,
`/slides/<id>.html` in that order; the resolved path is the first answering
200, all earlier candidates having failed; if some path answers, none of the
later ones matters; if none answers the slide is skipped and the loop
continues with the remaining slides unchanged. -/
theorem c7_probe_order :
    (∀ s : String, tryPaths s =
      ["/slides/" ++ s ++ "/index.html", "/slides/" ++ s,
       "/" ++ s ++ "/index.html", "/" ++ s, "/slides/" ++ s ++ ".html"]) ∧
    (∀ (status : String → Nat) (s p : String),
      probeSlide status s = some p →
        (status ("/slides/" ++ s ++ "/index.html") = 200 ∧
          p = "/slides/" ++ s ++ "/index.html") ∨
        (status ("/slides/" ++ s ++ "/index.html") ≠ 200 ∧
          status ("/slides/" ++ s) = 200 ∧ p = "/slides/" ++ s) ∨
        (status ("/slides/" ++ s ++ "/index.html") ≠ 200 ∧
          status ("/slides/" ++ s) ≠ 200 ∧
          status ("/" ++ s ++ "/index.html") = 200 ∧
          p = "/" ++ s ++ "/index.html") ∨
        (status ("/slides/" ++ s ++ "/index.html") ≠ 200 ∧
          status ("/slides/" ++ s) ≠ 200 ∧
          status ("/" ++ s ++ "/index.html") ≠ 200 ∧
          status ("/" ++ s) = 200 ∧ p = "/" ++ s) ∨
        (status ("/slides/" ++ s ++ "/index.html") ≠ 200 ∧
          status ("/slides/" ++ s) ≠ 200 ∧
          status ("/" ++ s ++ "/index.html") ≠ 200 ∧
          status ("/" ++ s) ≠ 200 ∧
          status ("/slides/" ++ s ++ ".html") = 200 ∧
          p = "/slides/" ++ s ++ ".html")) ∧
    (∀ (status : String → Nat) (s : String),
      probeSlide status s = none → ∀ q ∈ tryPaths s, status q ≠ 200) ∧
    (∀ (status : String → Nat) (nav : String → NavResult) (s : String)
        (rest acc : List String),
      probeSlide status s = none →
        renderLoop status nav (s :: rest) acc = renderLoop status nav rest acc) := by
  refine ⟨fun _ => rfl, ?_, ?_, ?_⟩
  · intro status s p h
    unfold probeSlide tryPaths at h
    by_cases h1 : (status ("/slides/" ++ s ++ "/index.html") == 200) = true
    · simp only [List.find?, h1] at h
      exact Or.inl ⟨by simpa using h1, (Option.some.inj h).symm⟩
    · have h1f : (status ("/slides/" ++ s ++ "/index.html") == 200) = false := by
        simpa using h1
      simp only [beq_iff_eq] at h1
      by_cases h2 : (status ("/slides/" ++ s) == 200) = true
      · simp only [List.find?, h1f, h2] at h
        exact Or.inr (Or.inl ⟨h1, by simpa using h2, (Option.some.inj h).symm⟩)
      · have h2f : (status ("/slides/" ++ s) == 200) = false := by simpa using h2
        simp only [beq_iff_eq] at h2
        by_cases h3 : (status ("/" ++ s ++ "/index.html") == 200) = true
        · simp only [List.find?, h1f, h2f, h3] at h
          exact Or.inr (Or.inr (Or.inl ⟨h1, h2, by simpa using h3,
            (Option.some.inj h).symm⟩))
        · have h3f : (status ("/" ++ s ++ "/index.html") == 200) = false := by
            simpa using h3
          simp only [beq_iff_eq] at h3
          by_cases h4 : (status ("/" ++ s) == 200) = true
          · simp only [List.find?, h1f, h2f, h3f, h4] at h
            exact Or.inr (Or.inr (Or.inr (Or.inl ⟨h1, h2, h3,
              by simpa using h4, (Option.some.inj h).symm⟩)))
          · have h4f : (status ("/" ++ s) == 200) = false := by simpa using h4
            simp only [beq_iff_eq] at h4
            by_cases h5 : (status ("/slides/" ++ s ++ ".html") == 200) = true
            · simp only [List.find?, h1f, h2f, h3f, h4f, h5] at h
              exact Or.inr (Or.inr (Or.inr (Or.inr ⟨h1, h2, h3, h4,
                by simpa using h5, (Option.some.inj h).symm⟩)))
            · have h5f : (status ("/slides/" ++ s ++ ".html") == 200) = false := by
                simpa using h5
              simp only [List.find?, h1f, h2f, h3f, h4f, h5f] at h
              exact absurd h (by simp)
  · intro status s h q hq
    have hall := List.find?_eq_none.mp h q hq
    simpa using hall
  · intro status nav s rest acc h
    simp only [renderLoop, h]

/-- Probe status for the C7 witness: only `/slides/x` answers 200. -/
def exStatusC7 : String → Nat :=
  fun p => if p == "/slides/x" then 200 else 404

/-- Probe status for the C7 witness's skip part: nothing answers 200. -/
def exStatus404 : String → Nat := fun _ => 404

/-- Witness for C7: with only `/slides/x` reachable, the probe resolves the
second candidate after the first fails; with nothing reachable, the slide is
skipped and the loop continues with the rest. -/
theorem c7_probe_order_witness :
    ((exStatusC7 ("/slides/" ++ "x" ++ "/index.html") = 200 ∧
       "/slides/x" = "/slides/" ++ "x" ++ "/index.html") ∨
     (exStatusC7 ("/slides/" ++ "x" ++ "/index.html") ≠ 200 ∧
       exStatusC7 ("/slides/" ++ "x") = 200 ∧ "/slides/x" = "/slides/" ++ "x") ∨
     (exStatusC7 ("/slides/" ++ "x" ++ "/index.html") ≠ 200 ∧
       exStatusC7 ("/slides/" ++ "x") ≠ 200 ∧
       exStatusC7 ("/" ++ "x" ++ "/index.html") = 200 ∧
       "/slides/x" = "/" ++ "x" ++ "/index.html") ∨
     (exStatusC7 ("/slides/" ++ "x" ++ "/index.html") ≠ 200 ∧
       exStatusC7 ("/slides/" ++ "x") ≠ 200 ∧
       exStatusC7 ("/" ++ "x" ++ "/index.html") ≠ 200 ∧
       exStatusC7 ("/" ++ "x") = 200 ∧ "/slides/x" = "/" ++ "x") ∨
     (exStatusC7 ("/slides/" ++ "x" ++ "/index.html") ≠ 200 ∧
       exStatusC7 ("/slides/" ++ "x") ≠ 200 ∧
       exStatusC7 ("/" ++ "x" ++ "/index.html") ≠ 200 ∧
       exStatusC7 ("/" ++ "x") ≠ 200 ∧
       exStatusC7 ("/slides/" ++ "x" ++ ".html") = 200 ∧
       "/slides/x" = "/slides/" ++ "x" ++ ".html")) ∧
    renderLoop exStatus404 (fun _ => NavResult.ok) ["x"] [] =
      renderLoop exStatus404 (fun _ => NavResult.ok) [] [] :=
  ⟨c7_probe_order.2.1 exStatusC7 "x" "/slides/x" (by decide),
   c7_probe_order.2.2.2 exStatus404 (fun _ => NavResult.ok) "x" [] [] (by decide)⟩

/-- C8: the exit code is 2 exactly when fewer than two positional arguments
were supplied (and then usage is printed), it is always 0, 1 or 2, and it is
0 exactly when every pipeline stage succeeds — so every fatal pipeline error
(archive missing, extraction failure, no slides, no browser, zero rendered,
write failure) exits with 1. -/
theorem c8_exit_codes (inp : RunInput) :
    ((runMain inp).exitCode = 2 ↔ inp.argc < 4) ∧
    (inp.argc < 4 → (runMain inp).usagePrinted = true) ∧
    ((runMain inp).exitCode = 0 ∨ (runMain inp).exitCode = 1 ∨
      (runMain inp).exitCode = 2) ∧
    ((runMain inp).exitCode = 0 ↔
      (¬ inp.argc < 4 ∧ inp.archiveExists = true ∧ inp.extractOk = true ∧
        inp.chromeFound = true ∧ inp.writeOk = true ∧
        ∃ l imgs, enumerateSlides inp.tree = some l ∧ l ≠ [] ∧
          renderLoop (serveStatus inp.tree) inp.nav l [] = Except.ok imgs ∧
          imgs ≠ [])) := by
  unfold runMain
  split
  · simp_all [fatalResult]
  · split
    · simp_all [fatalResult]
    · split
      · simp_all [fatalResult]
      · split
        · simp_all [fatalResult]
        · split
          · simp_all [fatalResult]
          · split
            · simp_all [fatalResult]
            · split
              · simp_all [fatalResult]
              · split
                · simp_all [fatalResult]
                · split
                  · simp_all [fatalResult]
                  · simp_all [fatalResult]

/-- Concrete run for the C8 witness: only one positional argument
(`process.argv.length = 3`). -/
def exInputC8 : RunInput :=
  { argc := 3
    archiveExists := true
    extractOk := true
    tree := { hasSlidesDir := true
              entries := [⟨"0", true, true⟩]
              manifest := none }
    chromeFound := true
    nav := fun _ => NavResult.ok
    writeOk := true }

/-- Witness for C8 at the concrete run `exInputC8` with too few arguments:
exit code 2 and usage printed. -/
theorem c8_exit_codes_witness :
    (runMain exInputC8).exitCode = 2 ∧ (runMain exInputC8).usagePrinted = true :=
  ⟨(c8_exit_codes exInputC8).1.mpr (by decide),
   (c8_exit_codes exInputC8).2.1 (by decide)⟩

/-- C9: more than two positional arguments are not rejected — the argument
check only fires below two — and the program proceeds with `process.argv[2]`
and `process.argv[3]`, ignoring every extra argument; no run with at least
two positional arguments exits with the usage code 2 or prints usage. -/
theorem c9_extra_args_ignored :
    (∀ a0 a1 a2 a3 : String, ∀ rest : List String,
      parseArgs (a0 :: a1 :: a2 :: a3 :: rest) = some (a2, a3)) ∧
    (∀ inp : RunInput, 4 ≤ inp.argc →
      (runMain inp).exitCode ≠ 2 ∧ (runMain inp).usagePrinted = false) := by
  constructor
  · intro a0 a1 a2 a3 rest
    unfold parseArgs
    rw [if_neg (by simp only [List.length_cons]; omega)]
    rfl
  · intro inp h4
    have h4' : ¬ inp.argc < 4 := by omega
    unfold runMain
    rw [if_neg h4']
    split
    · exact ⟨by simp [fatalResult], rfl⟩
    · split
      · exact ⟨by simp [fatalResult], rfl⟩
      · split
        · exact ⟨by simp [fatalResult], rfl⟩
        · split
          · exact ⟨by simp [fatalResult], rfl⟩
          · split
            · exact ⟨by simp [fatalResult], rfl⟩
            · split
              · exact ⟨by simp [fatalResult], rfl⟩
              · split
                · exact ⟨by simp [fatalResult], rfl⟩
                · split
                  · exact ⟨by simp [fatalResult], rfl⟩
                  · exact ⟨by simp, rfl⟩

/-- Concrete run for the C9 witness: six argv entries, i.e. four positional
arguments, two of them extras. -/
def exInputC9 : RunInput :=
  { argc := 6
    archiveExists := true
    extractOk := true
    tree := { hasSlidesDir := true
              entries := [⟨"0", true, true⟩]
              manifest := none }
    chromeFound := true
    nav := fun _ => NavResult.ok
    writeOk := true }

/-- Witness for C9: with two extra positional arguments the parser still
yields argv[2] and argv[3], and the run does not take the usage exit. -/
theorem c9_extra_args_ignored_witness :
    parseArgs ["bun", "make-pdf.js", "in.webslider", "out.pdf", "x", "y"] =
      some ("in.webslider", "out.pdf") ∧
    (runMain exInputC9).exitCode ≠ 2 ∧ (runMain exInputC9).usagePrinted = false :=
  ⟨c9_extra_args_ignored.1 "bun" "make-pdf.js" "in.webslider" "out.pdf" ["x", "y"],
   c9_extra_args_ignored.2 exInputC9 (by decide)⟩

/-- Staged tree for C10: one all-digits slide folder "0" that does not
contain an `index.html`. -/
def exTreeC10 : Archive :=
  { hasSlidesDir := true
    entries := [⟨"0", true, false⟩]
    manifest := none }

/-- Concrete run over `exTreeC10` for the C10 counterexample. -/
def exInputC10 : RunInput :=
  { argc := 4
    archiveExists := true
    extractOk := true
    tree := exTreeC10
    chromeFound := true
    nav := fun _ => NavResult.ok
    writeOk := true }

/-- C10 counterexample: the all-digits folder "0" without `index.html` is
enumerated by the primary strategy (that part of the claim holds), but it is
NOT "skipped at URL probing": the server answers 200 for the bare directory
path `/slides/0` (the handler serves an existing directory even without an
`index.html` inside), the probe resolves to that path, and the run renders
the slide as a page. -/
theorem c10_no_index_counterexample :
    listNumericSlideFolders exTreeC10 = ["0"] ∧
    probeSlide (serveStatus exTreeC10) "0" = some ("/slides/" ++ "0") ∧
    (runMain exInputC10).pages = ["0"] := by decide

/-- C10 (amended): the primary enumeration strategy includes every
all-digits-named subdirectory of `slides/` regardless of `index.html`, and
only the fallback strategy requires an `index.html`; however, an enumerated
slide folder lacking `index.html` is not skipped at URL probing — for every
slide identifier backed by a directory entry, the probe resolves (the server
answers 200 for the bare directory path), so such a slide proceeds to
navigation and rendering. -/
theorem c10_enumeration_and_probe (a : Archive) :
    (∀ e ∈ a.entries, e.isDir = true → isAllDigits e.name = true →
      a.hasSlidesDir = true → e.name ∈ listNumericSlideFolders a) ∧
    (∀ n, n ∈ List.insertionSort lexLe (indexNames a) →
      ∃ e ∈ a.entries, e.isDir = true ∧ e.hasIndexHtml = true ∧ e.name = n) ∧
    (∀ s : String, (∃ e ∈ a.entries, e.isDir = true ∧ e.name = s) →
      (probeSlide (serveStatus a) s).isSome = true) := by
  refine ⟨?_, ?_, ?_⟩
  · intro e he hd hdig hs
    unfold listNumericSlideFolders
    rw [if_pos hs, (List.perm_insertionSort numLe _).mem_iff]
    unfold digitNames
    refine List.mem_filter.mpr ⟨List.mem_map.mpr ⟨e, ?_, rfl⟩, hdig⟩
    exact List.mem_filter.mpr ⟨he, hd⟩
  · intro n hn
    rw [(List.perm_insertionSort lexLe _).mem_iff] at hn
    unfold indexNames at hn
    rcases List.mem_filter.mp hn with ⟨_, hidx⟩
    rcases List.any_eq_true.mp hidx with ⟨e, he, hcond⟩
    simp only [Bool.and_eq_true, beq_iff_eq] at hcond
    exact ⟨e, he, hcond.1.2, hcond.2, hcond.1.1⟩
  · intro s hs
    exact probeSlide_isSome_of_dirPath a s (isDirPath_of_entry a s hs)

/-- Witness for C10's amended statement on `exTreeC10`: the index-less
numeric folder is enumerated by the primary strategy and its probe
resolves. -/
theorem c10_enumeration_and_probe_witness :
    "0" ∈ listNumericSlideFolders exTreeC10 ∧
    (probeSlide (serveStatus exTreeC10) "0").isSome = true :=
  ⟨(c10_enumeration_and_probe exTreeC10).1 ⟨"0", true, false⟩ (by decide) rfl
      (by decide) rfl,
   (c10_enumeration_and_probe exTreeC10).2.2 "0"
      ⟨⟨"0", true, false⟩, by decide, rfl, rfl⟩⟩

end WebSlider
